import Mathlib

/-!
Shallow embedding of the abcds-detector evaluation orchestrator and its
deterministic post-processing engines, with proofs about the claims of the
specification.

Sources embedded:
* `src/credits.py` — token pricing, upload validation, credit ledger
  mutation (`deduct_credits`, `refund_credits`), per-user job slot.
* `src/benchmarking.py` — `_percentile_rank`.
* `src/performance_predictor.py` — section scores, normalization, drivers.
* `src/web_app.py` — evaluation admission, cache probe, category fan-out,
  post-success credit charge in the SSE event stream.

Python `float` arithmetic is modelled exactly over `ℚ`; Python's
`round(x, n)` (banker's rounding) is `pyRound`; machine integers are `ℤ`.
-/

namespace AbcdsDetector

/-- Round-half-to-even on a rational, returning an integer: the behaviour of
Python's builtin `round` at integer precision. -/
def roundHalfEven (x : ℚ) : ℤ :=
  if x - (⌊x⌋ : ℚ) < 1/2 then ⌊x⌋
  else if 1/2 < x - (⌊x⌋ : ℚ) then ⌊x⌋ + 1
  else if ⌊x⌋ % 2 = 0 then ⌊x⌋ else ⌊x⌋ + 1

/-- Python's `round(x, d)` for `d` decimal digits, modelled exactly on `ℚ`. -/
def pyRound (x : ℚ) (d : ℕ) : ℚ :=
  (roundHalfEven (x * 10 ^ d) : ℚ) / 10 ^ d

/-! ## src/credits.py -/

/-- Token pricing constant `TOKENS_PER_SECOND` from `src/credits.py`. -/
def TOKENS_PER_SECOND : ℤ := 10

/-- `MAX_VIDEO_SECONDS` from `src/credits.py`. -/
def MAX_VIDEO_SECONDS : ℤ := 60

/-- `MIN_TOKENS_TO_RENDER` from `src/credits.py`. -/
def MIN_TOKENS_TO_RENDER : ℤ := 100

/-- `required_tokens` from `src/credits.py`:
`math.ceil(duration_seconds) * TOKENS_PER_SECOND`. -/
def required_tokens (duration_seconds : ℚ) : ℤ :=
  ⌈duration_seconds⌉ * TOKENS_PER_SECOND

/-- A row of the `credit_transactions` table (`src/db.py`): type is
`"grant"` or `"debit"`, `amount` is the (nonnegative-by-use) magnitude. -/
structure CreditTransaction where
  user_id : String
  txType : String
  amount : ℤ
  reason : String
  job_id : Option String
deriving DecidableEq

/-- The per-user persistent state touched by `src/credits.py`: the
`users.credits_balance` column together with the user's (append-only)
`credit_transactions` rows, in insertion order. -/
structure UserState where
  id : String
  balance : ℤ
  ledger : List CreditTransaction
deriving DecidableEq

/-- Signed contribution of one transaction to the running sum: grants are
added, debits subtracted. -/
def txDelta (t : CreditTransaction) : ℤ :=
  if t.txType = "debit" then -t.amount else t.amount

/-- Running sum of a list of transactions (grants added, debits
subtracted). -/
def ledgerSum (l : List CreditTransaction) : ℤ :=
  (l.map txDelta).sum

/-- `deduct_credits` from `src/credits.py`: clamps the balance at `0`
(`max(0, user.credits_balance - tokens)`) while recording a debit row for
the full token amount.  Returns the new state and the tokens deducted. -/
def deduct_credits (s : UserState) (duration_seconds : ℚ)
    (job_id : Option String) : UserState × ℤ :=
  let tokens := required_tokens duration_seconds
  ({ s with
     balance := max 0 (s.balance - tokens)
     ledger := s.ledger ++
       [{ user_id := s.id, txType := "debit", amount := tokens,
          reason := "video_evaluation", job_id := job_id }] },
   tokens)

/-- `refund_credits` from `src/credits.py`: a non-positive amount is a
no-op; otherwise the balance grows and a grant row is recorded. -/
def refund_credits (s : UserState) (tokens : ℤ) (reason : String)
    (job_id : Option String) : UserState × ℤ :=
  if tokens ≤ 0 then (s, 0)
  else
    ({ s with
       balance := s.balance + tokens
       ledger := s.ledger ++
         [{ user_id := s.id, txType := "grant", amount := tokens,
            reason := reason, job_id := job_id }] },
     tokens)

/-- One ledger-mutating operation of `src/credits.py`. -/
inductive LedgerOp where
  | deduct (duration_seconds : ℚ) (job_id : Option String)
  | refund (tokens : ℤ) (reason : String) (job_id : Option String)
deriving DecidableEq

/-- Apply one `LedgerOp` to a user state. -/
def applyOp (s : UserState) : LedgerOp → UserState
  | .deduct d j => (deduct_credits s d j).1
  | .refund t r j => (refund_credits s t r j).1

/-- Apply a sequence of ledger operations from left to right. -/
def applyOps (s : UserState) (ops : List LedgerOp) : UserState :=
  ops.foldl applyOp s

/-- Holds when, along the whole run, every deduction is covered by the
balance at the moment it is applied (no clamping ever fires). -/
def noOverdraft (s : UserState) : List LedgerOp → Prop
  | [] => True
  | op :: rest =>
      (match op with
       | .deduct d _ => required_tokens d ≤ s.balance
       | .refund _ _ _ => True) ∧ noOverdraft (applyOp s op) rest

/-- `acquire_job_slot` from `src/credits.py`, over the `_active_jobs`
dictionary modelled as its membership function.  Returns the result and
the new dictionary. -/
def acquire_job_slot (m : String → Bool) (user_id : String) :
    Bool × (String → Bool) :=
  if m user_id then (false, m)
  else (true, fun v => if v = user_id then true else m v)

/-- `release_job_slot` from `src/credits.py`: `dict.pop(user_id, None)`. -/
def release_job_slot (m : String → Bool) (user_id : String) :
    String → Bool :=
  fun v => if v = user_id then false else m v

/-- One top-up offer, as listed in `TOKEN_PACKS` in `src/credits.py`. -/
structure TokenPackOffer where
  pack : String
  usd : ℕ
  tokens : ℕ
deriving DecidableEq

/-- The offers attached to an insufficient-credits error, from
`TOKEN_PACKS` in `src/credits.py`. -/
def token_pack_offers : List TokenPackOffer :=
  [{ pack := "TOKENS_1000", usd := 10, tokens := 1000 },
   { pack := "TOKENS_3000", usd := 25, tokens := 3000 }]

/-! ## Admission in `POST /api/evaluate` (`src/web_app.py`) -/

/-- The possible outcomes of the admission checks at the top of
`evaluate_video` in `src/web_app.py` (before any pipeline work). -/
inductive AdmissionResult where
  | insufficient_credits (credits_balance : ℤ) (required : ℤ)
      (offers : List TokenPackOffer) (status_code : ℕ)
  | concurrent_limit (status_code : ℕ)
  | admitted
deriving DecidableEq

/-- The admission gate of `evaluate_video` (`src/web_app.py`): the balance
check runs first and returns a 402 payload carrying the current balance
and the top-up offers without touching the job-slot map; only then is the
job slot attempted. -/
def evaluate_admission (balance : ℤ) (slots : String → Bool)
    (user_id : String) : AdmissionResult × (String → Bool) :=
  if balance < MIN_TOKENS_TO_RENDER then
    (.insufficient_credits balance MIN_TOKENS_TO_RENDER token_pack_offers 402,
     slots)
  else
    let r := acquire_job_slot slots user_id
    if r.1 then (.admitted, r.2)
    else (.concurrent_limit 429, slots)

/-! ## src/benchmarking.py -/

/-- Python's `bisect.bisect_left` on an (ascending) sorted list: the
leftmost insertion point, i.e. the length of the maximal strictly-smaller
initial run. -/
def bisect_left (sorted_values : List ℚ) (value : ℚ) : ℕ :=
  (sorted_values.takeWhile (fun x => decide (x < value))).length

/-- `_percentile_rank` from `src/benchmarking.py`:
`round(pos / len(sorted_values) * 100, 1)`, and `50.0` on empty history. -/
def percentile_rank (sorted_values : List ℚ) (value : ℚ) : ℚ :=
  if sorted_values.isEmpty then 50
  else pyRound ((bisect_left sorted_values value : ℚ)
      / (sorted_values.length : ℚ) * 100) 1

/-! ## src/performance_predictor.py -/

/-- A formatted feature dict as consumed by `compute_predictions`
(produced by `format_feature` in `src/web_app.py`). -/
structure Feature where
  name : String
  sub_category : String
  detected : Bool
  confidence : Option ℚ
  evidence : String
  rationale : String
deriving DecidableEq

/-- ASCII lower-casing, as used by Python's `str.lower` on the feature
texts involved here. -/
def lowerStr (s : String) : String := ⟨s.data.map Char.toLower⟩

/-- ASCII upper-casing (Python `str.upper`). -/
def upperStr (s : String) : String := ⟨s.data.map Char.toUpper⟩

/-- Whether `pat` occurs at the start of `hay`. -/
def charsStart (pat hay : List Char) : Bool :=
  match pat, hay with
  | [], _ => true
  | _ :: _, [] => false
  | p :: ps, h :: hs => p = h && charsStart ps hs

/-- Whether `pat` occurs anywhere inside `hay` (Python's `pat in hay`). -/
def charsInside (pat hay : List Char) : Bool :=
  match hay with
  | [] => pat.isEmpty
  | _ :: hs => charsStart pat hay || charsInside pat hs

/-- Python's substring test `pat in hay` on strings. -/
def strInside (pat hay : String) : Bool := charsInside pat.data hay.data

/-- The effective confidence of a detected feature in `_section_score`:
Python's `f.get("confidence") or 0.5` replaces any falsy value — an absent
confidence but also an exact `0` — by the `0.5` default. -/
def effConf : Option ℚ → ℚ
  | none => 1/2
  | some c => if c = 0 then 1/2 else c

/-- Contribution of one feature inside the `_section_score` loop. -/
def featureContrib (per_feature : ℚ) (f : Feature) : ℚ :=
  if f.detected then effConf f.confidence * per_feature else 0

/-- `_section_score` from `src/performance_predictor.py`: each detected
feature contributes `confidence * (max_score / n)`; the total is clamped
to `max_score` and rounded to two decimals. -/
def section_score (features : List Feature) (max_score : ℚ) : ℚ :=
  if features.isEmpty then 0
  else
    pyRound
      (min ((features.map
        (featureContrib (max_score / (features.length : ℚ)))).sum) max_score)
      2

/-- `_has_keyword_detected` from `src/performance_predictor.py`: true when
some detected feature's chosen text field contains one of the keywords. -/
def has_keyword_detected (features : List Feature) (keywords : List String)
    (field : Feature → String) : Bool :=
  features.any fun f =>
    f.detected && keywords.any fun k => strInside k (lowerStr (field f))

/-- `_by_sub` from `src/performance_predictor.py`: filter by
`sub_category`, case-insensitively. -/
def by_sub (features : List Feature) (sub : String) : List Feature :=
  features.filter fun f => upperStr f.sub_category == upperStr sub

/-- Keyword list for the CONNECT product split. -/
def product_kw : List String := ["product"]

/-- Keyword list for the CONNECT people split. -/
def people_kw : List String := ["people", "face", "person", "presence"]

/-- Whether a feature's lower-cased name contains one of the keywords. -/
def nameMatches (kws : List String) (f : Feature) : Bool :=
  kws.any fun k => strInside k (lowerStr f.name)

/-- Keywords of the measurement-compatibility evidence probe. -/
def measurement_kw : List String := ["url", "qr", "link", "code", "shop", "visit"]

/-- The nine section scores assembled by `compute_predictions`
(`src/performance_predictor.py`), field order = dict insertion order. -/
structure SectionScores where
  hook_attention : ℚ
  brand_visibility : ℚ
  social_proof_trust : ℚ
  product_clarity_benefits : ℚ
  funnel_alignment : ℚ
  cta : ℚ
  creative_diversity_readiness : ℚ
  measurement_compatibility : ℚ
  data_audience_leverage : ℚ
deriving DecidableEq

/-- The section-score part of `compute_predictions`
(`src/performance_predictor.py`, lines 92–151). -/
def compute_scores (abcd_features persuasion_features structure_features :
    List Feature) : SectionScores :=
  let attract := by_sub abcd_features "ATTRACT"
  let brand := by_sub abcd_features "BRAND"
  let connect := by_sub abcd_features "CONNECT"
  let direct := by_sub abcd_features "DIRECT"
  let product_feats := connect.filter (nameMatches product_kw)
  let people_feats := connect.filter (nameMatches people_kw)
  let coverage : ℚ :=
    ((abcd_features.countP (fun f => f.detected) : ℚ)) /
      ((max abcd_features.length 1 : ℕ) : ℚ)
  { hook_attention := section_score attract 15
    brand_visibility := section_score brand 10
    social_proof_trust :=
      section_score (people_feats ++ persuasion_features) 15
    product_clarity_benefits := section_score product_feats 15
    funnel_alignment := section_score structure_features 10
    cta := section_score direct 10
    creative_diversity_readiness :=
      pyRound
        (min (section_score (structure_features ++ persuasion_features) 10
            * (6/10) + coverage * 4) 10) 2
    measurement_compatibility :=
      pyRound
        (min (section_score direct 7 +
          (if has_keyword_detected (direct ++ abcd_features) measurement_kw
              (fun f => f.evidence) then 3 else 0)) 10) 2
    data_audience_leverage :=
      pyRound (min (section_score brand 5) 5) 2 }

/-- The per-section normalized values (`norm` dict): score divided by the
fixed section maximum, rounded to four decimals. -/
structure SectionNorms where
  hook_attention : ℚ
  brand_visibility : ℚ
  social_proof_trust : ℚ
  product_clarity_benefits : ℚ
  funnel_alignment : ℚ
  cta : ℚ
  creative_diversity_readiness : ℚ
  measurement_compatibility : ℚ
  data_audience_leverage : ℚ
deriving DecidableEq

/-- The normalization stage of `compute_predictions` (`SECTION_MAXES`
divisors from `src/performance_predictor.py`). -/
def compute_norm (s : SectionScores) : SectionNorms :=
  { hook_attention := pyRound (s.hook_attention / 15) 4
    brand_visibility := pyRound (s.brand_visibility / 10) 4
    social_proof_trust := pyRound (s.social_proof_trust / 15) 4
    product_clarity_benefits := pyRound (s.product_clarity_benefits / 15) 4
    funnel_alignment := pyRound (s.funnel_alignment / 10) 4
    cta := pyRound (s.cta / 10) 4
    creative_diversity_readiness :=
      pyRound (s.creative_diversity_readiness / 10) 4
    measurement_compatibility :=
      pyRound (s.measurement_compatibility / 10) 4
    data_audience_leverage := pyRound (s.data_audience_leverage / 5) 4 }

/-- The `norm` dict as an association list in its Python insertion order,
as iterated by the drivers computation. -/
def norm_list (abcd_features persuasion_features structure_features :
    List Feature) : List (String × ℚ) :=
  let n := compute_norm
    (compute_scores abcd_features persuasion_features structure_features)
  [("hook_attention", n.hook_attention),
   ("brand_visibility", n.brand_visibility),
   ("social_proof_trust", n.social_proof_trust),
   ("product_clarity_benefits", n.product_clarity_benefits),
   ("funnel_alignment", n.funnel_alignment),
   ("cta", n.cta),
   ("creative_diversity_readiness", n.creative_diversity_readiness),
   ("measurement_compatibility", n.measurement_compatibility),
   ("data_audience_leverage", n.data_audience_leverage)]

/-- Insert into a descending-by-value list, before the first entry that is
not larger: the insertion step of a stable descending sort. -/
def insert_desc (x : String × ℚ) : List (String × ℚ) → List (String × ℚ)
  | [] => [x]
  | y :: ys => if y.2 ≤ x.2 then x :: y :: ys else y :: insert_desc x ys

/-- Stable sort by value, descending: the model of Python's
`sorted(..., key=lambda x: x[1], reverse=True)` (Python's sort is stable,
and a stable descending sort is a unique function of the input list). -/
def sorted_desc (l : List (String × ℚ)) : List (String × ℚ) :=
  l.foldr insert_desc []

/-- Insert into an ascending-by-value list (stable). -/
def insert_asc (x : String × ℚ) : List (String × ℚ) → List (String × ℚ)
  | [] => [x]
  | y :: ys => if x.2 ≤ y.2 then x :: y :: ys else y :: insert_asc x ys

/-- Stable sort by value, ascending. -/
def sorted_asc (l : List (String × ℚ)) : List (String × ℚ) :=
  l.foldr insert_asc []

/-- `SECTION_LABELS` from `src/performance_predictor.py` as a function. -/
def SECTION_LABELS (k : String) : String :=
  if k = "hook_attention" then "Hook & Attention"
  else if k = "brand_visibility" then "Brand Visibility"
  else if k = "social_proof_trust" then "Social Proof & Trust"
  else if k = "product_clarity_benefits" then "Product Clarity"
  else if k = "funnel_alignment" then "Funnel Alignment"
  else if k = "cta" then "Call to Action"
  else if k = "creative_diversity_readiness" then "Creative Diversity"
  else if k = "measurement_compatibility" then "Measurement Readiness"
  else if k = "data_audience_leverage" then "Audience Leverage"
  else k

/-- One reported driver entry: `{"feature": label, "score": round(v, 2)}`. -/
def driver_entry (kv : String × ℚ) : String × ℚ :=
  (SECTION_LABELS kv.1, pyRound kv.2 2)

/-- `top_positive` of the drivers block (`src/performance_predictor.py`,
lines 310–314): the first three of the descending sort, filtered to the
strictly-above-0.5 ones. -/
def top_positive (norm : List (String × ℚ)) : List (String × ℚ) :=
  (((sorted_desc norm).take 3).filter
    (fun kv => decide ((1:ℚ)/2 < kv.2))).map driver_entry

/-- `top_negative` of the drivers block (`src/performance_predictor.py`,
lines 315–319): all strictly-below-0.5 entries of the descending sort,
mapped to driver entries, truncated to three (map and truncation
commute, so the map is applied after the truncation here). -/
def top_negative (norm : List (String × ℚ)) : List (String × ℚ) :=
  (((sorted_desc norm).filter
    (fun kv => decide (kv.2 < (1:ℚ)/2))).take 3).map driver_entry

/-- The negative drivers as the specification words them: the worst three
(three lowest) normalized sections among those strictly below `0.5`.
Stated as a second definition purely for the refinement comparison with
`top_negative`. -/
def spec_negative_drivers (norm : List (String × ℚ)) : List (String × ℚ) :=
  ((sorted_asc (norm.filter (fun kv => decide (kv.2 < (1:ℚ)/2)))).take 3).map
    driver_entry

/-- Predicate: every explicitly present confidence lies in `[0, 1]` (the
spec invariant on `FeatureEvaluation.confidence`). -/
def ConfOK (features : List Feature) : Prop :=
  ∀ f ∈ features, ∀ c, f.confidence = some c → 0 ≤ c ∧ c ≤ 1

/-! ## Evaluation pipeline (`src/web_app.py`) -/

/-- The duration-bearing shape of the results dict, as read by
`get_actual_duration` in `src/credits.py`. -/
structure EvalResults where
  vm_duration_seconds : Option ℚ
  ft_video_duration_s : Option ℚ
deriving DecidableEq

/-- A present-and-positive probe on an optional duration field. -/
def posDuration : Option ℚ → Option ℚ
  | some d => if 0 < d then some d else none
  | none => none

/-- `get_actual_duration` from `src/credits.py`:
`video_metadata.duration_seconds` first (if present and positive), then
`feature_timeline.video_duration_s`, else `None`. -/
def get_actual_duration (r : EvalResults) : Option ℚ :=
  match posDuration r.vm_duration_seconds with
  | some d => some d
  | none => posDuration r.ft_video_duration_s

/-- How the worker task of `event_stream` in `src/web_app.py` ends. -/
inductive RunOutcome where
  | success (results : EvalResults)
  | failure (message : String)
  | timeout
deriving DecidableEq

/-- The outcome of one `event_stream` run over the credit ledger. -/
structure FinalState where
  user : UserState
  render_status : String
  tokens_used : ℤ
deriving DecidableEq

/-- The charging tail of `event_stream` (`src/web_app.py`, lines
1240–1349): a timed-out run marks the Render `failed` and a raising run
emits an `error` event, both returning before any credit code runs; only
the post-success block charges, once, through `deduct_credits`, using the
actual duration (falling back to `MAX_VIDEO_SECONDS` when it cannot be
determined). -/
def event_stream_finalize (outcome : RunOutcome) (u : UserState)
    (report_id : String) : FinalState :=
  match outcome with
  | .failure _ => { user := u, render_status := "rendering", tokens_used := 0 }
  | .timeout => { user := u, render_status := "failed", tokens_used := 0 }
  | .success r =>
      let actual_dur := (get_actual_duration r).getD (60 : ℚ)
      let d := deduct_credits u actual_dur (some report_id)
      { user := d.1, render_status := "succeeded", tokens_used := d.2 }

/-- The three fan-out outcomes of step 3 of `run_evaluation`
(`src/web_app.py`, lines 475–526): each future either returns a feature
list or raises. -/
structure FanOutcomes where
  abcd : Except String (List Feature)
  shorts : Except String (List Feature)
  ci : Except String (List Feature)

/-- How one fan-out slot settles: a disabled category stays at the `[]`
initializer; a failed future is logged and also leaves the `[]`
initializer; a successful future overwrites it. -/
def settle_slot (enabled : Bool) (o : Except String (List Feature)) :
    List Feature :=
  if enabled then (match o with | .ok r => r | .error _ => []) else []

/-- Step 3 of `run_evaluation`: the three per-category lists after the
fan-out, in source order (long_form, shorts, creative_intel). -/
def run_fan_out (run_abcd run_shorts run_ci : Bool) (o : FanOutcomes) :
    List Feature × List Feature × List Feature :=
  (settle_slot run_abcd o.abcd, settle_slot run_shorts o.shorts,
   settle_slot run_ci o.ci)

/-- The list-level content of `format_results` (`src/web_app.py`): the
ABCD and shorts lists go through unchanged, and the creative-intelligence
list is split by sub-category into persuasion/structure facets. -/
structure FormattedResult where
  abcd_features : List Feature
  shorts_features : List Feature
  persuasion_features : List Feature
  structure_features : List Feature
deriving DecidableEq

/-- Assemble the final result lists from the fan-out lists, as
`format_results` does. -/
def format_lists (long_form shorts creative_intel : List Feature) :
    FormattedResult :=
  { abcd_features := long_form
    shorts_features := shorts
    persuasion_features :=
      creative_intel.filter (fun f => f.sub_category == "PERSUASION")
    structure_features :=
      creative_intel.filter (fun f => f.sub_category == "STRUCTURE") }

/-- Python's `str(bool)` for the two booleans, as interpolated into the
cache-key string. -/
def pyBoolStr (b : Bool) : String := if b then "True" else "False"

/-- The raw fingerprint string of `_cache_key` (`src/web_app.py`):
`f"{video_uri}|{use_abcd}|{use_shorts}|{use_ci}"`.  The MD5 hexdigest
applied on top is a fixed injective-in-use encoding and is modelled by the
raw string itself. -/
def cache_key_raw (video_uri : String) (use_abcd use_shorts use_ci : Bool) :
    String :=
  video_uri ++ "|" ++ pyBoolStr use_abcd ++ "|" ++ pyBoolStr use_shorts
    ++ "|" ++ pyBoolStr use_ci

/-- One observed run of the pipeline body: its result, how many external
collaborator calls it made, and the progress events it emitted. -/
structure PipelineRun (R : Type) where
  result : R
  external_calls : ℕ
  events : List (String × ℕ)
deriving DecidableEq

/-- The cache probe and store of `run_evaluation` (`src/web_app.py`, lines
424–431 and 603–606): on a fingerprint hit the cached value is returned
immediately with a single 100%-progress `cache` event and no external
work; otherwise the pipeline body runs (possibly raising), and on success
its result is stored under the fingerprint. -/
def run_evaluation_cached {R : Type} (cache : List (String × R))
    (video_uri : String) (use_abcd use_shorts use_ci : Bool)
    (pipeline : Except String (PipelineRun R)) :
    Except String (PipelineRun R × List (String × R)) :=
  match cache.lookup (cache_key_raw video_uri use_abcd use_shorts use_ci) with
  | some r =>
      .ok ({ result := r, external_calls := 0, events := [("cache", 100)] },
        cache)
  | none =>
      match pipeline with
      | .error e => .error e
      | .ok p =>
          .ok (p,
            (cache_key_raw video_uri use_abcd use_shorts use_ci, p.result)
              :: cache)

/-- Concrete ABCD feature: a detected ATTRACT feature, confidence 0.45. -/
def exA1 : Feature :=
  { name := "Dynamic Start", sub_category := "ATTRACT", detected := true,
    confidence := some (45/100), evidence := "", rationale := "" }

/-- Concrete ABCD feature: a detected CONNECT people feature, 0.35. -/
def exA2 : Feature :=
  { name := "People Presence", sub_category := "CONNECT", detected := true,
    confidence := some (35/100), evidence := "", rationale := "" }

/-- Concrete ABCD feature: a detected CONNECT product feature, 0.25. -/
def exA3 : Feature :=
  { name := "Product Visuals", sub_category := "CONNECT", detected := true,
    confidence := some (25/100), evidence := "", rationale := "" }

/-- Concrete ABCD feature: an undetected DIRECT feature. -/
def exA4 : Feature :=
  { name := "Call To Action Text", sub_category := "DIRECT",
    detected := false, confidence := none, evidence := "", rationale := "" }

/-- A concrete formatted ABCD feature list used to exercise the drivers
block of `compute_predictions` on explicit inputs. -/
def exAbcd : List Feature := [exA1, exA2, exA3, exA4]

/-- Each of the nine section scores lies between `0` and its
`SECTION_MAXES` entry. -/
def scoresWithinMaxes (s : SectionScores) : Prop :=
  (0 ≤ s.hook_attention ∧ s.hook_attention ≤ 15) ∧
  (0 ≤ s.brand_visibility ∧ s.brand_visibility ≤ 10) ∧
  (0 ≤ s.social_proof_trust ∧ s.social_proof_trust ≤ 15) ∧
  (0 ≤ s.product_clarity_benefits ∧ s.product_clarity_benefits ≤ 15) ∧
  (0 ≤ s.funnel_alignment ∧ s.funnel_alignment ≤ 10) ∧
  (0 ≤ s.cta ∧ s.cta ≤ 10) ∧
  (0 ≤ s.creative_diversity_readiness ∧
    s.creative_diversity_readiness ≤ 10) ∧
  (0 ≤ s.measurement_compatibility ∧ s.measurement_compatibility ≤ 10) ∧
  (0 ≤ s.data_audience_leverage ∧ s.data_audience_leverage ≤ 5)

/-- Each of the nine normalized section values lies in `[0, 1]`. -/
def normsWithinUnit (n : SectionNorms) : Prop :=
  (0 ≤ n.hook_attention ∧ n.hook_attention ≤ 1) ∧
  (0 ≤ n.brand_visibility ∧ n.brand_visibility ≤ 1) ∧
  (0 ≤ n.social_proof_trust ∧ n.social_proof_trust ≤ 1) ∧
  (0 ≤ n.product_clarity_benefits ∧ n.product_clarity_benefits ≤ 1) ∧
  (0 ≤ n.funnel_alignment ∧ n.funnel_alignment ≤ 1) ∧
  (0 ≤ n.cta ∧ n.cta ≤ 1) ∧
  (0 ≤ n.creative_diversity_readiness ∧
    n.creative_diversity_readiness ≤ 1) ∧
  (0 ≤ n.measurement_compatibility ∧ n.measurement_compatibility ≤ 1) ∧
  (0 ≤ n.data_audience_leverage ∧ n.data_audience_leverage ≤ 1)

end AbcdsDetector

namespace AbcdsDetector

/-! ## Rounding lemmas -/

theorem roundHalfEven_le {x : ℚ} {k : ℤ} (h : x ≤ (k : ℚ)) :
    roundHalfEven x ≤ k := by
  have hfl : ⌊x⌋ ≤ k := by
    have := Int.floor_le_floor h
    rwa [Int.floor_intCast] at this
  have hlow : (⌊x⌋ : ℚ) ≤ x := Int.floor_le x
  unfold roundHalfEven
  split_ifs with h1 h2 h3
  · exact hfl
  · have : (⌊x⌋ : ℚ) + 1/2 ≤ x := by linarith
    have hq : (⌊x⌋ : ℚ) < (k : ℚ) := by linarith
    have : ⌊x⌋ < k := by exact_mod_cast hq
    omega
  · exact hfl
  · have : (⌊x⌋ : ℚ) + 1/2 ≤ x := by linarith
    have hq : (⌊x⌋ : ℚ) < (k : ℚ) := by linarith
    have : ⌊x⌋ < k := by exact_mod_cast hq
    omega

theorem le_roundHalfEven {x : ℚ} {k : ℤ} (h : (k : ℚ) ≤ x) :
    k ≤ roundHalfEven x := by
  have hfl : k ≤ ⌊x⌋ := Int.le_floor.mpr h
  unfold roundHalfEven
  split_ifs <;> omega

theorem pyRound_nonneg {x : ℚ} (d : ℕ) (h : 0 ≤ x) : 0 ≤ pyRound x d := by
  unfold pyRound
  have h1 : (0 : ℤ) ≤ roundHalfEven (x * 10 ^ d) := by
    refine le_roundHalfEven ?_
    push_cast
    positivity
  have h2 : (0 : ℚ) ≤ (roundHalfEven (x * 10 ^ d) : ℚ) := by exact_mod_cast h1
  positivity

theorem pyRound_le (k : ℤ) {x c : ℚ} (d : ℕ) (hxc : x ≤ c)
    (hck : c * 10 ^ d = (k : ℚ)) : pyRound x d ≤ c := by
  unfold pyRound
  have h1 : roundHalfEven (x * 10 ^ d) ≤ k := by
    refine roundHalfEven_le ?_
    rw [← hck]
    have hp : (0 : ℚ) ≤ 10 ^ d := by positivity
    exact mul_le_mul_of_nonneg_right hxc hp
  have h2 : (roundHalfEven (x * 10 ^ d) : ℚ) ≤ (k : ℚ) := by exact_mod_cast h1
  have hp : (0 : ℚ) < 10 ^ d := by positivity
  rw [div_le_iff₀ hp, hck]
  exact h2

end AbcdsDetector

namespace AbcdsDetector

/-! ## C10 -/

/-- C10: in the aggregator's section-score computation, a detected feature
whose confidence is present but exactly `0` contributes as though its
confidence were the `0.5` default — the default substitution applies to any
falsy confidence value, not only an absent one. -/
theorem C10_zero_confidence_default (pre post : List Feature)
    (nm sub ev ra : String) (m : ℚ) :
    section_score (pre ++
        { name := nm, sub_category := sub, detected := true,
          confidence := some 0, evidence := ev, rationale := ra } :: post) m
      = section_score (pre ++
        { name := nm, sub_category := sub, detected := true,
          confidence := none, evidence := ev, rationale := ra } :: post) m := by
  simp [section_score, featureContrib, effConf, List.map_append,
    List.sum_append]

/-! ## C6 -/

/-- C6: for a user holding no slot, `tryAdmit` succeeds, an immediately
repeated `tryAdmit` for the same user fails, after `release` a further
`tryAdmit` succeeds again, and `release` on a slot-free state is a
semantic no-op. -/
theorem C6_job_slot_protocol (m : String → Bool) (u : String)
    (h : m u = false) :
    (acquire_job_slot m u).1 = true ∧
    (acquire_job_slot (acquire_job_slot m u).2 u).1 = false ∧
    (acquire_job_slot
        (release_job_slot (acquire_job_slot m u).2 u) u).1 = true ∧
    (∀ v, release_job_slot m u v = m v) := by
  refine ⟨?_, ?_, ?_, ?_⟩
  · simp [acquire_job_slot, h]
  · simp [acquire_job_slot, h]
  · simp [acquire_job_slot, release_job_slot, h]
  · intro v
    by_cases hv : v = u
    · simp [release_job_slot, hv, h]
    · simp [release_job_slot, hv]

/-- Witness for C6 at a concrete user and the empty slot map. -/
theorem C6_witness :
    ((fun _ : String => false) "alice" = false) ∧
    ((acquire_job_slot (fun _ => false) "alice").1 = true ∧
     (acquire_job_slot
        (acquire_job_slot (fun _ => false) "alice").2 "alice").1 = false ∧
     (acquire_job_slot
        (release_job_slot
          (acquire_job_slot (fun _ => false) "alice").2 "alice")
        "alice").1 = true ∧
     (∀ v, release_job_slot (fun _ => false) "alice" v
        = (fun _ : String => false) v)) :=
  ⟨rfl, C6_job_slot_protocol (fun _ => false) "alice" rfl⟩

/-! ## C7 -/

/-- C7: whenever the balance is below the fixed 100-token minimum, the
evaluation request is refused with the insufficient-credits payload
carrying the current balance and the top-up offers, the job-slot map is
untouched, and admission (hence pipeline work) never happens. -/
theorem C7_insufficient_balance (balance : ℤ) (slots : String → Bool)
    (uid : String) (h : balance < MIN_TOKENS_TO_RENDER) :
    evaluate_admission balance slots uid
        = (.insufficient_credits balance MIN_TOKENS_TO_RENDER
            token_pack_offers 402, slots) ∧
    (evaluate_admission balance slots uid).1 ≠ .admitted ∧
    (∀ v, (evaluate_admission balance slots uid).2 v = slots v) := by
  unfold evaluate_admission
  rw [if_pos h]
  exact ⟨rfl, by simp, fun v => rfl⟩

/-- Witness for C7: the spec scenario of balance 50 against threshold
100. -/
theorem C7_witness :
    ((50 : ℤ) < MIN_TOKENS_TO_RENDER) ∧
    (evaluate_admission 50 (fun _ => false) "u1"
        = (.insufficient_credits 50 MIN_TOKENS_TO_RENDER
            token_pack_offers 402, fun _ => false) ∧
     (evaluate_admission 50 (fun _ => false) "u1").1 ≠ .admitted ∧
     (∀ v, (evaluate_admission 50 (fun _ => false) "u1").2 v
        = (fun _ : String => false) v)) :=
  ⟨by decide, C7_insufficient_balance 50 (fun _ => false) "u1" (by decide)⟩

/-! ## C8 -/

/-- C8: in the three-way category fan-out, when the creative-intelligence
(persuasion) call fails and the other two succeed, the fan-out yields the
two successful lists unchanged and an empty third list, the assembled
result carries the two lists and an empty persuasion facet, and a
completed run still finalizes with status `succeeded`. -/
theorem C8_fanout_partial_failure (la ls : List Feature) (e : String)
    (u : UserState) (jid : String) (r : EvalResults) :
    run_fan_out true true true
        { abcd := .ok la, shorts := .ok ls, ci := .error e }
        = (la, ls, []) ∧
    (format_lists la ls []).abcd_features = la ∧
    (format_lists la ls []).shorts_features = ls ∧
    (format_lists la ls []).persuasion_features = [] ∧
    (event_stream_finalize (.success r) u jid).render_status
        = "succeeded" :=
  ⟨rfl, rfl, rfl, rfl, rfl⟩

/-! ## C9 -/

/-- C9: after a first `run_evaluation` call on a fingerprint completes
successfully, a second call with the identical fingerprint returns the
identical result, performs no external collaborator calls, emits exactly
one 100%-progress event, and leaves the cache unchanged — regardless of
what the pipeline body would have done the second time. -/
theorem C9_cache_idempotence {R : Type} (cache : List (String × R))
    (uri : String) (fa fs fc : Bool)
    (pipe pipe' : Except String (PipelineRun R))
    (t1 : PipelineRun R) (c1 : List (String × R))
    (h : run_evaluation_cached cache uri fa fs fc pipe = .ok (t1, c1)) :
    run_evaluation_cached c1 uri fa fs fc pipe'
      = .ok ({ result := t1.result, external_calls := 0,
               events := [("cache", 100)] }, c1) := by
  unfold run_evaluation_cached at h ⊢
  cases hl : List.lookup (cache_key_raw uri fa fs fc) cache with
  | some r =>
      rw [hl] at h
      simp only [Except.ok.injEq, Prod.mk.injEq] at h
      obtain ⟨ht, hc⟩ := h
      subst hc
      rw [hl, ← ht]
  | none =>
      rw [hl] at h
      cases pipe with
      | error e => simp at h
      | ok p =>
          simp only [Except.ok.injEq, Prod.mk.injEq] at h
          obtain ⟨ht, hc⟩ := h
          subst hc
          subst ht
          simp [List.lookup]

/-- Witness for C9: a first call on an empty cache followed by a second
call with the same fingerprint. -/
theorem C9_witness :
    (run_evaluation_cached ([] : List (String × ℕ)) "gs://v" true false true
        (.ok { result := 7, external_calls := 3, events := [("trim", 5)] })
      = .ok ({ result := 7, external_calls := 3, events := [("trim", 5)] },
             [(cache_key_raw "gs://v" true false true, 7)])) ∧
    (run_evaluation_cached [(cache_key_raw "gs://v" true false true, 7)]
        "gs://v" true false true
        (.ok { result := 9, external_calls := 5, events := [] })
      = .ok ({ result := 7, external_calls := 0,
               events := [("cache", 100)] },
             [(cache_key_raw "gs://v" true false true, 7)])) :=
  ⟨rfl,
   C9_cache_idempotence [] "gs://v" true false true
     (.ok { result := 7, external_calls := 3, events := [("trim", 5)] })
     (.ok { result := 9, external_calls := 5, events := [] })
     { result := 7, external_calls := 3, events := [("trim", 5)] }
     [(cache_key_raw "gs://v" true false true, 7)] rfl⟩

/-! ## C3 -/

/-- C3: a successfully completed run appends exactly one debit transaction
whose amount is `ceil(actual duration) × TOKENS_PER_SECOND`, while a run
that fails or times out leaves the user's state (hence the ledger)
untouched. -/
theorem C3_charge_on_success_only (u : UserState) (jid : String)
    (r : EvalResults) (d : ℚ) (msg : String)
    (h : get_actual_duration r = some d) :
    (event_stream_finalize (.success r) u jid).user.ledger
      = u.ledger ++
        [{ user_id := u.id, txType := "debit",
           amount := required_tokens d,
           reason := "video_evaluation", job_id := some jid }] ∧
    (event_stream_finalize (.success r) u jid).tokens_used
      = required_tokens d ∧
    required_tokens d = ⌈d⌉ * TOKENS_PER_SECOND ∧
    (event_stream_finalize (.failure msg) u jid).user = u ∧
    (event_stream_finalize .timeout u jid).user = u := by
  refine ⟨?_, ?_, rfl, rfl, rfl⟩ <;>
    simp [event_stream_finalize, h, deduct_credits]

/-- Witness for C3 at a results dict reporting a 30-second duration. -/
theorem C3_witness :
    (get_actual_duration
        { vm_duration_seconds := some 30, ft_video_duration_s := none }
      = some 30) ∧
    ((event_stream_finalize
        (.success { vm_duration_seconds := some 30,
                    ft_video_duration_s := none })
        { id := "u", balance := 400, ledger := [] } "job1").user.ledger
      = [] ++
        [{ user_id := "u", txType := "debit",
           amount := required_tokens 30,
           reason := "video_evaluation", job_id := some "job1" }] ∧
     (event_stream_finalize
        (.success { vm_duration_seconds := some 30,
                    ft_video_duration_s := none })
        { id := "u", balance := 400, ledger := [] } "job1").tokens_used
      = required_tokens 30 ∧
     required_tokens 30 = ⌈(30 : ℚ)⌉ * TOKENS_PER_SECOND ∧
     (event_stream_finalize (.failure "boom")
        { id := "u", balance := 400, ledger := [] } "job1").user
      = { id := "u", balance := 400, ledger := [] } ∧
     (event_stream_finalize .timeout
        { id := "u", balance := 400, ledger := [] } "job1").user
      = { id := "u", balance := 400, ledger := [] }) := by
  have h : get_actual_duration
      { vm_duration_seconds := some 30, ft_video_duration_s := none }
      = some 30 := by
    simp [get_actual_duration, posDuration]
  exact ⟨h, C3_charge_on_success_only
    { id := "u", balance := 400, ledger := [] } "job1"
    { vm_duration_seconds := some 30, ft_video_duration_s := none }
    30 "boom" h⟩

end AbcdsDetector

namespace AbcdsDetector

/-! ## C1 -/

theorem ledgerSum_append (a b : List CreditTransaction) :
    ledgerSum (a ++ b) = ledgerSum a + ledgerSum b := by
  simp [ledgerSum]

theorem applyOp_ledger_isPrefix (s : UserState) (op : LedgerOp) :
    s.ledger <+: (applyOp s op).ledger := by
  cases op with
  | deduct d j =>
      simp only [applyOp, deduct_credits]
      exact List.prefix_append _ _
  | refund t r j =>
      by_cases ht : t ≤ 0
      · simp [applyOp, refund_credits, ht]
      · simp only [applyOp, refund_credits, if_neg ht]
        exact List.prefix_append _ _

theorem applyOps_ledger_isPrefix (ops : List LedgerOp) (s : UserState) :
    s.ledger <+: (applyOps s ops).ledger := by
  induction ops generalizing s with
  | nil => exact List.prefix_rfl
  | cons op rest ih =>
      exact (applyOp_ledger_isPrefix s op).trans (ih (applyOp s op))

theorem applyOp_sum_le (s : UserState) (op : LedgerOp)
    (h : ledgerSum s.ledger ≤ s.balance) :
    ledgerSum (applyOp s op).ledger ≤ (applyOp s op).balance := by
  cases op with
  | deduct d j =>
      simp only [applyOp, deduct_credits, ledgerSum_append]
      have hmax : s.balance - required_tokens d
          ≤ max 0 (s.balance - required_tokens d) := le_max_right _ _
      have hone : ledgerSum
          [{ user_id := s.id, txType := "debit", amount := required_tokens d,
             reason := "video_evaluation", job_id := j }]
          = -(required_tokens d) := by
        simp [ledgerSum, txDelta]
      rw [hone]
      linarith
  | refund t r j =>
      by_cases ht : t ≤ 0
      · simpa [applyOp, refund_credits, ht] using h
      · simp only [applyOp, refund_credits, if_neg ht, ledgerSum_append]
        have hone : ledgerSum
            [{ user_id := s.id, txType := "grant", amount := t,
               reason := r, job_id := j }] = t := by
          simp [ledgerSum, txDelta]
        rw [hone]
        linarith

theorem applyOps_sum_le (ops : List LedgerOp) (s : UserState)
    (h : ledgerSum s.ledger ≤ s.balance) :
    ledgerSum (applyOps s ops).ledger ≤ (applyOps s ops).balance := by
  induction ops generalizing s with
  | nil => exact h
  | cons op rest ih => exact ih (applyOp s op) (applyOp_sum_le s op h)

theorem applyOp_sum_eq (s : UserState) (op : LedgerOp)
    (h : ledgerSum s.ledger = s.balance)
    (hop : match op with
           | .deduct d _ => required_tokens d ≤ s.balance
           | .refund _ _ _ => True) :
    ledgerSum (applyOp s op).ledger = (applyOp s op).balance := by
  cases op with
  | deduct d j =>
      simp only [applyOp, deduct_credits, ledgerSum_append]
      have hmax : max 0 (s.balance - required_tokens d)
          = s.balance - required_tokens d :=
        max_eq_right (by simp only at hop; omega)
      have hone : ledgerSum
          [{ user_id := s.id, txType := "debit", amount := required_tokens d,
             reason := "video_evaluation", job_id := j }]
          = -(required_tokens d) := by
        simp [ledgerSum, txDelta]
      rw [hone, hmax]
      omega
  | refund t r j =>
      by_cases ht : t ≤ 0
      · simpa [applyOp, refund_credits, ht] using h
      · simp only [applyOp, refund_credits, if_neg ht, ledgerSum_append]
        have hone : ledgerSum
            [{ user_id := s.id, txType := "grant", amount := t,
               reason := r, job_id := j }] = t := by
          simp [ledgerSum, txDelta]
        rw [hone]
        omega

theorem applyOps_sum_eq (ops : List LedgerOp) (s : UserState)
    (h : ledgerSum s.ledger = s.balance) (hov : noOverdraft s ops) :
    ledgerSum (applyOps s ops).ledger = (applyOps s ops).balance := by
  induction ops generalizing s with
  | nil => exact h
  | cons op rest ih =>
      exact ih (applyOp s op) (applyOp_sum_eq s op h hov.1) hov.2

/-- C1, amended: starting from a reconciled state, any sequence of
`deduct_credits`/`refund_credits` keeps the transaction log append-only
(the original rows stay an untouched prefix), keeps the running sum of
transactions at or below the balance, and keeps the balance *equal* to the
running sum as long as no deduction exceeds the balance at the moment it
is applied — the `max(0, ·)` overdraft clamp being the only source of
divergence. -/
theorem C1_amended_ledger_reconciliation (ops : List LedgerOp)
    (s : UserState) (h : ledgerSum s.ledger = s.balance) :
    s.ledger <+: (applyOps s ops).ledger ∧
    ledgerSum (applyOps s ops).ledger ≤ (applyOps s ops).balance ∧
    (noOverdraft s ops →
      ledgerSum (applyOps s ops).ledger = (applyOps s ops).balance) :=
  ⟨applyOps_ledger_isPrefix ops s, applyOps_sum_le ops s (le_of_eq h),
   fun hov => applyOps_sum_eq ops s h hov⟩

/-- Witness for the amended C1 at a concrete run: one refund followed by a
covered deduction, from an empty ledger. -/
theorem C1_amended_witness :
    (ledgerSum (UserState.mk "u" 0 []).ledger
        = (UserState.mk "u" 0 []).balance) ∧
    ((UserState.mk "u" 0 []).ledger
        <+: (applyOps (UserState.mk "u" 0 [])
              [.refund 50 "render_refund" none,
               .deduct 3 (some "j")]).ledger ∧
     ledgerSum (applyOps (UserState.mk "u" 0 [])
          [.refund 50 "render_refund" none, .deduct 3 (some "j")]).ledger
        ≤ (applyOps (UserState.mk "u" 0 [])
            [.refund 50 "render_refund" none,
             .deduct 3 (some "j")]).balance ∧
     (noOverdraft (UserState.mk "u" 0 [])
          [.refund 50 "render_refund" none, .deduct 3 (some "j")] →
       ledgerSum (applyOps (UserState.mk "u" 0 [])
            [.refund 50 "render_refund" none, .deduct 3 (some "j")]).ledger
          = (applyOps (UserState.mk "u" 0 [])
              [.refund 50 "render_refund" none,
               .deduct 3 (some "j")]).balance)) :=
  ⟨rfl, C1_amended_ledger_reconciliation
    [.refund 50 "render_refund" none, .deduct 3 (some "j")]
    (UserState.mk "u" 0 []) rfl⟩

/-- C1 counterexample: from the reconciled state "one recorded grant of
100 tokens, balance 100", a single 60-second deduction (600 tokens, which
upload validation admits because the minimum to start is only 100) leaves
balance `0` but a transaction running sum of `-500`: the balance no longer
equals the running sum of the recorded transactions. -/
theorem C1_counterexample :
    (ledgerSum (UserState.mk "u" 100
        [CreditTransaction.mk "u" "grant" 100 "stripe_topup" none]).ledger
      = (UserState.mk "u" 100
          [CreditTransaction.mk "u" "grant" 100 "stripe_topup" none]).balance) ∧
    (applyOps (UserState.mk "u" 100
        [CreditTransaction.mk "u" "grant" 100 "stripe_topup" none])
        [.deduct 60 (some "j")]).balance = 0 ∧
    ledgerSum (applyOps (UserState.mk "u" 100
        [CreditTransaction.mk "u" "grant" 100 "stripe_topup" none])
        [.deduct 60 (some "j")]).ledger = -500 ∧
    (applyOps (UserState.mk "u" 100
        [CreditTransaction.mk "u" "grant" 100 "stripe_topup" none])
        [.deduct 60 (some "j")]).balance
      ≠ ledgerSum (applyOps (UserState.mk "u" 100
          [CreditTransaction.mk "u" "grant" 100 "stripe_topup" none])
          [.deduct 60 (some "j")]).ledger := by
  have hreq : required_tokens 60 = 600 := by
    simp [required_tokens, TOKENS_PER_SECOND]
  refine ⟨by simp [ledgerSum, txDelta], ?_, ?_, ?_⟩ <;>
    simp [applyOps, applyOp, deduct_credits, hreq, ledgerSum, txDelta]

end AbcdsDetector

namespace AbcdsDetector

/-! ## C2 -/

theorem percentile_rank_hist50_eval :
    percentile_rank [10, 20, 30, 40, 50, 60, 70, 80, 90] 50 = 222/5 := by
  have hb : bisect_left [10, 20, 30, 40, 50, 60, 70, 80, 90] 50 = 4 := by
    norm_num [bisect_left, List.takeWhile]
  have hx : ((bisect_left [10, 20, 30, 40, 50, 60, 70, 80, 90] 50 : ℚ)
      / ((List.length [(10 : ℚ), 20, 30, 40, 50, 60, 70, 80, 90] : ℕ) : ℚ)
      * 100) = 400/9 := by
    rw [hb]
    norm_num
  unfold percentile_rank
  rw [if_neg (by simp)]
  rw [hx]
  have hfl : ⌊(400/9 : ℚ) * 10 ^ 1⌋ = 444 := by norm_num
  unfold pyRound roundHalfEven
  rw [hfl]
  rw [if_pos (by norm_num)]
  norm_num

/-- C2 counterexample: on the nine-value history `[10,…,90]` and query
`50`, `_percentile_rank` does not return `40.0` (four of nine strictly
smaller values make `4/9·100 ≈ 44.4`, not `40`). -/
theorem C2_counterexample :
    percentile_rank [10, 20, 30, 40, 50, 60, 70, 80, 90] 50 ≠ 40 := by
  rw [percentile_rank_hist50_eval]
  norm_num

/-- C2, amended: on the nine-value history `[10,…,90]` and query `50`,
`_percentile_rank` returns `44.4` (`round(4/9·100, 1)`). -/
theorem C2_percentile_rank_value :
    percentile_rank [10, 20, 30, 40, 50, 60, 70, 80, 90] 50 = 222/5 :=
  percentile_rank_hist50_eval

end AbcdsDetector

namespace AbcdsDetector

/-! ## C5 -/

theorem effConf_nonneg {c : Option ℚ}
    (h : ∀ x, c = some x → 0 ≤ x ∧ x ≤ 1) : 0 ≤ effConf c := by
  cases c with
  | none =>
      simp only [effConf]
      norm_num
  | some v =>
      simp only [effConf]
      by_cases hv : v = 0
      · rw [if_pos hv]
        norm_num
      · rw [if_neg hv]
        exact (h v rfl).1

theorem confOK_filter (p : Feature → Bool) {l : List Feature}
    (h : ConfOK l) : ConfOK (l.filter p) :=
  fun f hf c hc => h f (List.mem_of_mem_filter hf) c hc

theorem confOK_append {a b : List Feature} (ha : ConfOK a)
    (hb : ConfOK b) : ConfOK (a ++ b) := by
  intro f hf c hc
  rcases List.mem_append.mp hf with hm | hm
  · exact ha f hm c hc
  · exact hb f hm c hc

theorem confOK_nil : ConfOK [] :=
  fun f hf => absurd hf (List.not_mem_nil f)

theorem section_score_nonneg {fs : List Feature} {m : ℚ}
    (hc : ConfOK fs) (hm : 0 ≤ m) : 0 ≤ section_score fs m := by
  unfold section_score
  by_cases he : fs.isEmpty
  · simp [he]
  · rw [if_neg he]
    apply pyRound_nonneg
    refine le_min ?_ hm
    apply List.sum_nonneg
    intro x hx
    rcases List.mem_map.mp hx with ⟨f, hf, rfl⟩
    unfold featureContrib
    by_cases hd : f.detected
    · rw [if_pos hd]
      refine mul_nonneg ?_ ?_
      · exact effConf_nonneg (fun cc hcc => hc f hf cc hcc)
      · exact div_nonneg hm (by positivity)
    · rw [if_neg hd]

theorem section_score_le (k : ℤ) {m : ℚ} (fs : List Feature) (hm : 0 ≤ m)
    (hk : m * 10 ^ 2 = (k : ℚ)) : section_score fs m ≤ m := by
  unfold section_score
  by_cases he : fs.isEmpty
  · simp [he, hm]
  · rw [if_neg he]
    exact pyRound_le k 2 (min_le_right _ _) hk

theorem section_score_bounds (k : ℤ) {fs : List Feature} {m : ℚ}
    (hc : ConfOK fs) (hm : 0 ≤ m) (hk : m * 10 ^ 2 = (k : ℚ)) :
    0 ≤ section_score fs m ∧ section_score fs m ≤ m :=
  ⟨section_score_nonneg hc hm, section_score_le k fs hm hk⟩

theorem coverage_bounds (l : List Feature) :
    0 ≤ ((l.countP (fun f => f.detected) : ℚ)
        / ((max l.length 1 : ℕ) : ℚ)) ∧
    ((l.countP (fun f => f.detected) : ℚ)
        / ((max l.length 1 : ℕ) : ℚ)) ≤ 1 := by
  have hden : (0 : ℚ) < ((max l.length 1 : ℕ) : ℚ) := by
    have : 1 ≤ max l.length 1 := le_max_right _ _
    exact_mod_cast lt_of_lt_of_le zero_lt_one this
  constructor
  · exact div_nonneg (by positivity) hden.le
  · rw [div_le_one hden]
    have h1 : l.countP (fun f => f.detected) ≤ l.length :=
      List.countP_le_length _
    have h2 : l.length ≤ max l.length 1 := le_max_left _ _
    exact_mod_cast le_trans h1 h2

theorem unit_norm_bound {v m : ℚ} (hv0 : 0 ≤ v) (hvm : v ≤ m)
    (hm : 0 < m) : 0 ≤ pyRound (v / m) 4 ∧ pyRound (v / m) 4 ≤ 1 :=
  ⟨pyRound_nonneg 4 (div_nonneg hv0 hm.le),
   pyRound_le 10000 4 ((div_le_one hm).mpr hvm) (by norm_num)⟩

/-- C5: for all inputs whose explicit confidences lie in `[0,1]`, every
one of the nine section scores lies between `0` and its section maximum,
and every normalized section value lies in `[0,1]`. -/
theorem C5_section_scores_bounded (abcd pers strf : List Feature)
    (h1 : ConfOK abcd) (h2 : ConfOK pers) (h3 : ConfOK strf) :
    scoresWithinMaxes (compute_scores abcd pers strf) ∧
    normsWithinUnit (compute_norm (compute_scores abcd pers strf)) := by
  have hA : ConfOK (by_sub abcd "ATTRACT") := confOK_filter _ h1
  have hB : ConfOK (by_sub abcd "BRAND") := confOK_filter _ h1
  have hC : ConfOK (by_sub abcd "CONNECT") := confOK_filter _ h1
  have hD : ConfOK (by_sub abcd "DIRECT") := confOK_filter _ h1
  have hProd : ConfOK ((by_sub abcd "CONNECT").filter
      (nameMatches product_kw)) := confOK_filter _ hC
  have hPeople : ConfOK ((by_sub abcd "CONNECT").filter
      (nameMatches people_kw)) := confOK_filter _ hC
  have hSocial : ConfOK ((by_sub abcd "CONNECT").filter
      (nameMatches people_kw) ++ pers) := confOK_append hPeople h2
  have hSP : ConfOK (strf ++ pers) := confOK_append h3 h2
  have p1 := section_score_bounds 1500 hA (by norm_num)
    (by norm_num : (15 : ℚ) * 10 ^ 2 = ((1500 : ℤ) : ℚ))
  have p2 := section_score_bounds 1000 hB (by norm_num)
    (by norm_num : (10 : ℚ) * 10 ^ 2 = ((1000 : ℤ) : ℚ))
  have p3 := section_score_bounds 1500 hSocial (by norm_num)
    (by norm_num : (15 : ℚ) * 10 ^ 2 = ((1500 : ℤ) : ℚ))
  have p4 := section_score_bounds 1500 hProd (by norm_num)
    (by norm_num : (15 : ℚ) * 10 ^ 2 = ((1500 : ℤ) : ℚ))
  have p5 := section_score_bounds 1000 h3 (by norm_num)
    (by norm_num : (10 : ℚ) * 10 ^ 2 = ((1000 : ℤ) : ℚ))
  have p6 := section_score_bounds 1000 hD (by norm_num)
    (by norm_num : (10 : ℚ) * 10 ^ 2 = ((1000 : ℤ) : ℚ))
  have pSP := section_score_bounds 1000 hSP (by norm_num)
    (by norm_num : (10 : ℚ) * 10 ^ 2 = ((1000 : ℤ) : ℚ))
  have p6' := section_score_bounds 700 hD (by norm_num)
    (by norm_num : (7 : ℚ) * 10 ^ 2 = ((700 : ℤ) : ℚ))
  have p2' := section_score_bounds 500 hB (by norm_num)
    (by norm_num : (5 : ℚ) * 10 ^ 2 = ((500 : ℤ) : ℚ))
  have hcov := coverage_bounds abcd
  have p7 : 0 ≤ (compute_scores abcd pers strf).creative_diversity_readiness ∧
      (compute_scores abcd pers strf).creative_diversity_readiness ≤ 10 := by
    constructor
    · apply pyRound_nonneg
      refine le_min ?_ (by norm_num)
      have t1 : 0 ≤ section_score (strf ++ pers) 10 * (6/10) :=
        mul_nonneg pSP.1 (by norm_num)
      have t2 : 0 ≤ ((abcd.countP (fun f => f.detected) : ℚ)
          / ((max abcd.length 1 : ℕ) : ℚ)) * 4 :=
        mul_nonneg hcov.1 (by norm_num)
      linarith
    · exact pyRound_le 1000 2 (min_le_right _ _) (by norm_num)
  have p8 : 0 ≤ (compute_scores abcd pers strf).measurement_compatibility ∧
      (compute_scores abcd pers strf).measurement_compatibility ≤ 10 := by
    constructor
    · apply pyRound_nonneg
      refine le_min ?_ (by norm_num)
      have t1 : (0 : ℚ) ≤ (if has_keyword_detected
          (by_sub abcd "DIRECT" ++ abcd) measurement_kw
          (fun f => f.evidence) then 3 else 0) := by
        split_ifs <;> norm_num
      linarith [p6'.1]
    · exact pyRound_le 1000 2 (min_le_right _ _) (by norm_num)
  have p9 : 0 ≤ (compute_scores abcd pers strf).data_audience_leverage ∧
      (compute_scores abcd pers strf).data_audience_leverage ≤ 5 := by
    constructor
    · exact pyRound_nonneg 2 (le_min p2'.1 (by norm_num))
    · exact pyRound_le 500 2 (min_le_right _ _) (by norm_num)
  refine ⟨⟨p1, p2, p3, p4, p5, p6, p7, p8, p9⟩,
    ⟨?_, ?_, ?_, ?_, ?_, ?_, ?_, ?_, ?_⟩⟩
  · exact unit_norm_bound p1.1 p1.2 (by norm_num)
  · exact unit_norm_bound p2.1 p2.2 (by norm_num)
  · exact unit_norm_bound p3.1 p3.2 (by norm_num)
  · exact unit_norm_bound p4.1 p4.2 (by norm_num)
  · exact unit_norm_bound p5.1 p5.2 (by norm_num)
  · exact unit_norm_bound p6.1 p6.2 (by norm_num)
  · exact unit_norm_bound p7.1 p7.2 (by norm_num)
  · exact unit_norm_bound p8.1 p8.2 (by norm_num)
  · exact unit_norm_bound p9.1 p9.2 (by norm_num)

/-- Witness for C5 at the empty feature lists. -/
theorem C5_witness :
    ConfOK [] ∧
    (scoresWithinMaxes (compute_scores [] [] []) ∧
     normsWithinUnit (compute_norm (compute_scores [] [] []))) :=
  ⟨confOK_nil,
   C5_section_scores_bounded [] [] [] confOK_nil confOK_nil confOK_nil⟩

end AbcdsDetector

namespace AbcdsDetector

/-! ## C4: sorting lemmas -/

theorem insert_desc_perm (x : String × ℚ) (l : List (String × ℚ)) :
    List.Perm (insert_desc x l) (x :: l) := by
  induction l with
  | nil => exact List.Perm.refl _
  | cons y ys ih =>
      by_cases h : y.2 ≤ x.2
      · simp only [insert_desc, if_pos h]
        exact List.Perm.refl _
      · simp only [insert_desc, if_neg h]
        exact (ih.cons y).trans (List.Perm.swap x y ys)

theorem sorted_desc_perm (l : List (String × ℚ)) :
    List.Perm (sorted_desc l) l := by
  induction l with
  | nil => exact List.Perm.refl _
  | cons x xs ih =>
      have h1 : List.Perm (sorted_desc (x :: xs)) (x :: sorted_desc xs) :=
        insert_desc_perm x (sorted_desc xs)
      exact h1.trans (ih.cons x)

theorem insert_desc_pairwise (x : String × ℚ) {l : List (String × ℚ)}
    (h : List.Pairwise (fun a b => b.2 ≤ a.2) l) :
    List.Pairwise (fun a b => b.2 ≤ a.2) (insert_desc x l) := by
  induction l with
  | nil => simp [insert_desc]
  | cons y ys ih =>
      rcases List.pairwise_cons.mp h with ⟨hy, hys⟩
      by_cases hc : y.2 ≤ x.2
      · simp only [insert_desc, if_pos hc]
        refine List.pairwise_cons.mpr ⟨?_, h⟩
        intro z hz
        rcases List.mem_cons.mp hz with rfl | hz'
        · exact hc
        · exact le_trans (hy z hz') hc
      · simp only [insert_desc, if_neg hc]
        refine List.pairwise_cons.mpr ⟨?_, ih hys⟩
        intro z hz
        have hz' : z ∈ x :: ys := (insert_desc_perm x ys).mem_iff.mp hz
        rcases List.mem_cons.mp hz' with rfl | hz''
        · exact le_of_lt (lt_of_not_le hc)
        · exact hy z hz''

theorem sorted_desc_pairwise (l : List (String × ℚ)) :
    List.Pairwise (fun a b => b.2 ≤ a.2) (sorted_desc l) := by
  induction l with
  | nil => simp [sorted_desc]
  | cons x xs ih => exact insert_desc_pairwise x ih

theorem filter_take_of_pairwise {l : List (String × ℚ)}
    {p : String × ℚ → Bool}
    (hmono : ∀ a b : String × ℚ, b.2 ≤ a.2 → p b = true → p a = true)
    (h : List.Pairwise (fun a b => b.2 ≤ a.2) l) (n : ℕ) :
    (l.take n).filter p = (l.filter p).take n := by
  induction l generalizing n with
  | nil => simp
  | cons x xs ih =>
      rcases List.pairwise_cons.mp h with ⟨hx, hxs⟩
      cases n with
      | zero => simp
      | succ n =>
          by_cases hp : p x
          · have := ih hxs n
            simp [List.take_succ_cons, List.filter_cons, hp, this]
          · have hall : ∀ z ∈ xs, ¬(p z = true) := by
              intro z hz hpz
              exact hp (hmono x z (hx z hz) hpz)
            have h1 : xs.filter p = [] := by
              rw [List.filter_eq_nil_iff]
              exact hall
            have h2 : (xs.take n).filter p = [] := by
              rw [List.filter_eq_nil_iff]
              exact fun z hz => hall z (List.take_subset n xs hz)
            simp [List.take_succ_cons, List.filter_cons, hp, h1, h2]

end AbcdsDetector

namespace AbcdsDetector

theorem pyRound_eq_self_of_int_mul (k : ℤ) {x : ℚ} {d : ℕ}
    (hk : x * 10 ^ d = (k : ℚ)) : pyRound x d = x := by
  unfold pyRound roundHalfEven
  rw [hk, Int.floor_intCast]
  rw [if_pos (by norm_num)]
  have hp : (0 : ℚ) < 10 ^ d := by positivity
  field_simp
  linarith [hk]

/-- C4, amended: over all inputs, the descending order used by the drivers
block is a sorted permutation of the `norm` entries; the positive drivers
are the top three normalized sections among those strictly above `0.5`
(as the spec says); but the negative drivers are the *first three in
descending order* — i.e. the three *highest* — of the sections strictly
below `0.5`, not the three lowest. -/
theorem C4_drivers (abcd pers strf : List Feature) :
    List.Perm (sorted_desc (norm_list abcd pers strf))
      (norm_list abcd pers strf) ∧
    List.Pairwise (fun a b => b.2 ≤ a.2)
      (sorted_desc (norm_list abcd pers strf)) ∧
    top_positive (norm_list abcd pers strf)
      = (((sorted_desc (norm_list abcd pers strf)).filter
          (fun kv => decide ((1:ℚ)/2 < kv.2))).take 3).map driver_entry ∧
    top_negative (norm_list abcd pers strf)
      = (((sorted_desc (norm_list abcd pers strf)).filter
          (fun kv => decide (kv.2 < (1:ℚ)/2))).take 3).map driver_entry ∧
    ∀ x ∈ ((sorted_desc (norm_list abcd pers strf)).filter
          (fun kv => decide (kv.2 < (1:ℚ)/2))).take 3,
      ∀ y ∈ ((sorted_desc (norm_list abcd pers strf)).filter
          (fun kv => decide (kv.2 < (1:ℚ)/2))).drop 3,
        y.2 ≤ x.2 := by
  have hmono : ∀ a b : String × ℚ, b.2 ≤ a.2 →
      (fun kv : String × ℚ => decide ((1:ℚ)/2 < kv.2)) b = true →
      (fun kv : String × ℚ => decide ((1:ℚ)/2 < kv.2)) a = true := by
    intro a b hle hb
    simp only [decide_eq_true_eq] at hb ⊢
    linarith
  refine ⟨sorted_desc_perm _, sorted_desc_pairwise _, ?_, rfl, ?_⟩
  · unfold top_positive
    rw [filter_take_of_pairwise hmono
      (sorted_desc_pairwise (norm_list abcd pers strf)) 3]
  · have hpw := (sorted_desc_pairwise (norm_list abcd pers strf)).filter
      (fun kv => decide (kv.2 < (1:ℚ)/2))
    intro x hx y hy
    have hsplit := List.take_append_drop 3
      ((sorted_desc (norm_list abcd pers strf)).filter
        (fun kv => decide (kv.2 < (1:ℚ)/2)))
    rw [← hsplit] at hpw
    exact (List.pairwise_append.mp hpw).2.2 x hx y hy

end AbcdsDetector

namespace AbcdsDetector

theorem ex_by_sub_attract : by_sub exAbcd "ATTRACT" = [exA1] := rfl

theorem ex_by_sub_brand : by_sub exAbcd "BRAND" = [] := rfl

theorem ex_by_sub_connect : by_sub exAbcd "CONNECT" = [exA2, exA3] := rfl

theorem ex_by_sub_direct : by_sub exAbcd "DIRECT" = [exA4] := rfl

theorem ex_people :
    [exA2, exA3].filter (nameMatches people_kw) = [exA2] := rfl

theorem ex_product :
    [exA2, exA3].filter (nameMatches product_kw) = [exA3] := rfl

theorem ex_kw :
    has_keyword_detected ([exA4] ++ exAbcd) measurement_kw
      (fun f => f.evidence) = false := rfl

theorem ex_countP : exAbcd.countP (fun f => f.detected) = 3 := rfl

end AbcdsDetector

namespace AbcdsDetector

theorem ex_score_nil (m : ℚ) : section_score [] m = 0 := rfl

theorem ex_score_a1 : section_score [exA1] 15 = 27/4 := by
  have h1 : section_score [exA1] 15 = pyRound (min ((45/100 : ℚ) * (15/1)) 15) 2 := by
    unfold section_score
    rw [if_neg (by simp)]
    norm_num [featureContrib, effConf, exA1]
  rw [h1]
  rw [show min ((45/100 : ℚ) * (15/1)) 15 = 27/4 by
    rw [min_eq_left (by norm_num)]; norm_num]
  exact pyRound_eq_self_of_int_mul 675 (by norm_num)

theorem ex_score_a2 : section_score [exA2] 15 = 21/4 := by
  have h1 : section_score [exA2] 15 = pyRound (min ((35/100 : ℚ) * (15/1)) 15) 2 := by
    unfold section_score
    rw [if_neg (by simp)]
    norm_num [featureContrib, effConf, exA2]
  rw [h1]
  rw [show min ((35/100 : ℚ) * (15/1)) 15 = 21/4 by
    rw [min_eq_left (by norm_num)]; norm_num]
  exact pyRound_eq_self_of_int_mul 525 (by norm_num)

theorem ex_score_a3 : section_score [exA3] 15 = 15/4 := by
  have h1 : section_score [exA3] 15 = pyRound (min ((25/100 : ℚ) * (15/1)) 15) 2 := by
    unfold section_score
    rw [if_neg (by simp)]
    norm_num [featureContrib, effConf, exA3]
  rw [h1]
  rw [show min ((25/100 : ℚ) * (15/1)) 15 = 15/4 by
    rw [min_eq_left (by norm_num)]; norm_num]
  exact pyRound_eq_self_of_int_mul 375 (by norm_num)

theorem ex_score_a4_10 : section_score [exA4] 10 = 0 := by
  have h1 : section_score [exA4] 10 = pyRound (min (0 : ℚ) 10) 2 := by
    unfold section_score
    rw [if_neg (by simp)]
    norm_num [featureContrib, effConf, exA4]
  rw [h1]
  rw [show min (0 : ℚ) 10 = 0 by norm_num]
  exact pyRound_eq_self_of_int_mul 0 (by norm_num)

theorem ex_score_a4_7 : section_score [exA4] 7 = 0 := by
  have h1 : section_score [exA4] 7 = pyRound (min (0 : ℚ) 7) 2 := by
    unfold section_score
    rw [if_neg (by simp)]
    norm_num [featureContrib, effConf, exA4]
  rw [h1]
  rw [show min (0 : ℚ) 7 = 0 by norm_num]
  exact pyRound_eq_self_of_int_mul 0 (by norm_num)

end AbcdsDetector

namespace AbcdsDetector

theorem ex_scores_hook :
    (compute_scores exAbcd [] []).hook_attention = 27/4 := by
  show section_score (by_sub exAbcd "ATTRACT") 15 = 27/4
  rw [ex_by_sub_attract]
  exact ex_score_a1

theorem ex_scores_brand :
    (compute_scores exAbcd [] []).brand_visibility = 0 := by
  show section_score (by_sub exAbcd "BRAND") 10 = 0
  rw [ex_by_sub_brand]
  exact ex_score_nil 10

theorem ex_scores_social :
    (compute_scores exAbcd [] []).social_proof_trust = 21/4 := by
  show section_score
    ((by_sub exAbcd "CONNECT").filter (nameMatches people_kw) ++ []) 15
    = 21/4
  rw [ex_by_sub_connect, ex_people, List.append_nil]
  exact ex_score_a2

theorem ex_scores_product :
    (compute_scores exAbcd [] []).product_clarity_benefits = 15/4 := by
  show section_score
    ((by_sub exAbcd "CONNECT").filter (nameMatches product_kw)) 15 = 15/4
  rw [ex_by_sub_connect, ex_product]
  exact ex_score_a3

theorem ex_scores_funnel :
    (compute_scores exAbcd [] []).funnel_alignment = 0 := rfl

theorem ex_scores_cta : (compute_scores exAbcd [] []).cta = 0 := by
  show section_score (by_sub exAbcd "DIRECT") 10 = 0
  rw [ex_by_sub_direct]
  exact ex_score_a4_10

theorem ex_scores_diversity :
    (compute_scores exAbcd [] []).creative_diversity_readiness = 3 := by
  show pyRound (min (section_score ([] ++ []) 10 * (6/10) +
      ((exAbcd.countP (fun f => f.detected) : ℚ))
        / ((max exAbcd.length 1 : ℕ) : ℚ) * 4) 10) 2 = 3
  rw [show (min (section_score ([] ++ []) 10 * (6/10) +
      ((exAbcd.countP (fun f => f.detected) : ℚ))
        / ((max exAbcd.length 1 : ℕ) : ℚ) * 4) 10 : ℚ) = 3 by
    rw [ex_countP]
    rw [show exAbcd.length = 4 from rfl]
    rw [show (max 4 1 : ℕ) = 4 from rfl]
    rw [show section_score ([] ++ []) 10 = 0 from rfl]
    rw [min_eq_left (by norm_num)]
    norm_num]
  exact pyRound_eq_self_of_int_mul 300 (by norm_num)

theorem ex_scores_measurement :
    (compute_scores exAbcd [] []).measurement_compatibility = 0 := by
  show pyRound (min (section_score (by_sub exAbcd "DIRECT") 7 +
      (if has_keyword_detected (by_sub exAbcd "DIRECT" ++ exAbcd)
          measurement_kw (fun f => f.evidence) then 3 else 0)) 10) 2 = 0
  rw [ex_by_sub_direct, ex_score_a4_7, ex_kw]
  rw [if_neg (by simp)]
  rw [min_eq_left (by norm_num)]
  rw [show (0 : ℚ) + 0 = 0 by norm_num]
  exact pyRound_eq_self_of_int_mul 0 (by norm_num)

theorem ex_scores_audience :
    (compute_scores exAbcd [] []).data_audience_leverage = 0 := by
  show pyRound (min (section_score (by_sub exAbcd "BRAND") 5) 5) 2 = 0
  rw [ex_by_sub_brand]
  rw [show section_score ([] : List Feature) 5 = 0 from rfl]
  rw [min_eq_left (by norm_num)]
  exact pyRound_eq_self_of_int_mul 0 (by norm_num)

end AbcdsDetector

namespace AbcdsDetector

theorem ex_norm_hook :
    (compute_norm (compute_scores exAbcd [] [])).hook_attention = 9/20 := by
  show pyRound ((compute_scores exAbcd [] []).hook_attention / 15) 4 = 9/20
  rw [ex_scores_hook]
  rw [show (27/4 : ℚ) / 15 = 9/20 by norm_num]
  exact pyRound_eq_self_of_int_mul 4500 (by norm_num)

theorem ex_norm_brand :
    (compute_norm (compute_scores exAbcd [] [])).brand_visibility = 0 := by
  show pyRound ((compute_scores exAbcd [] []).brand_visibility / 10) 4 = 0
  rw [ex_scores_brand]
  rw [show (0 : ℚ) / 10 = 0 by norm_num]
  exact pyRound_eq_self_of_int_mul 0 (by norm_num)

theorem ex_norm_social :
    (compute_norm (compute_scores exAbcd [] [])).social_proof_trust
      = 7/20 := by
  show pyRound ((compute_scores exAbcd [] []).social_proof_trust / 15) 4
      = 7/20
  rw [ex_scores_social]
  rw [show (21/4 : ℚ) / 15 = 7/20 by norm_num]
  exact pyRound_eq_self_of_int_mul 3500 (by norm_num)

theorem ex_norm_product :
    (compute_norm (compute_scores exAbcd [] [])).product_clarity_benefits
      = 1/4 := by
  show pyRound
      ((compute_scores exAbcd [] []).product_clarity_benefits / 15) 4 = 1/4
  rw [ex_scores_product]
  rw [show (15/4 : ℚ) / 15 = 1/4 by norm_num]
  exact pyRound_eq_self_of_int_mul 2500 (by norm_num)

theorem ex_norm_funnel :
    (compute_norm (compute_scores exAbcd [] [])).funnel_alignment = 0 := by
  show pyRound ((compute_scores exAbcd [] []).funnel_alignment / 10) 4 = 0
  rw [ex_scores_funnel]
  rw [show (0 : ℚ) / 10 = 0 by norm_num]
  exact pyRound_eq_self_of_int_mul 0 (by norm_num)

theorem ex_norm_cta :
    (compute_norm (compute_scores exAbcd [] [])).cta = 0 := by
  show pyRound ((compute_scores exAbcd [] []).cta / 10) 4 = 0
  rw [ex_scores_cta]
  rw [show (0 : ℚ) / 10 = 0 by norm_num]
  exact pyRound_eq_self_of_int_mul 0 (by norm_num)

theorem ex_norm_diversity :
    (compute_norm
      (compute_scores exAbcd [] [])).creative_diversity_readiness
      = 3/10 := by
  show pyRound
      ((compute_scores exAbcd [] []).creative_diversity_readiness / 10) 4
      = 3/10
  rw [ex_scores_diversity]
  rw [show (3 : ℚ) / 10 = 3/10 by norm_num]
  exact pyRound_eq_self_of_int_mul 3000 (by norm_num)

theorem ex_norm_measurement :
    (compute_norm
      (compute_scores exAbcd [] [])).measurement_compatibility = 0 := by
  show pyRound
      ((compute_scores exAbcd [] []).measurement_compatibility / 10) 4 = 0
  rw [ex_scores_measurement]
  rw [show (0 : ℚ) / 10 = 0 by norm_num]
  exact pyRound_eq_self_of_int_mul 0 (by norm_num)

theorem ex_norm_audience :
    (compute_norm
      (compute_scores exAbcd [] [])).data_audience_leverage = 0 := by
  show pyRound
      ((compute_scores exAbcd [] []).data_audience_leverage / 5) 4 = 0
  rw [ex_scores_audience]
  rw [show (0 : ℚ) / 5 = 0 by norm_num]
  exact pyRound_eq_self_of_int_mul 0 (by norm_num)

theorem ex_norm_list_eval : norm_list exAbcd [] [] =
    [("hook_attention", 9/20), ("brand_visibility", 0),
     ("social_proof_trust", 7/20), ("product_clarity_benefits", 1/4),
     ("funnel_alignment", 0), ("cta", 0),
     ("creative_diversity_readiness", 3/10),
     ("measurement_compatibility", 0), ("data_audience_leverage", 0)] := by
  show [("hook_attention",
      (compute_norm (compute_scores exAbcd [] [])).hook_attention),
    ("brand_visibility",
      (compute_norm (compute_scores exAbcd [] [])).brand_visibility),
    ("social_proof_trust",
      (compute_norm (compute_scores exAbcd [] [])).social_proof_trust),
    ("product_clarity_benefits",
      (compute_norm (compute_scores exAbcd [] [])).product_clarity_benefits),
    ("funnel_alignment",
      (compute_norm (compute_scores exAbcd [] [])).funnel_alignment),
    ("cta", (compute_norm (compute_scores exAbcd [] [])).cta),
    ("creative_diversity_readiness",
      (compute_norm
        (compute_scores exAbcd [] [])).creative_diversity_readiness),
    ("measurement_compatibility",
      (compute_norm
        (compute_scores exAbcd [] [])).measurement_compatibility),
    ("data_audience_leverage",
      (compute_norm
        (compute_scores exAbcd [] [])).data_audience_leverage)] = _
  rw [ex_norm_hook, ex_norm_brand, ex_norm_social, ex_norm_product,
    ex_norm_funnel, ex_norm_cta, ex_norm_diversity, ex_norm_measurement,
    ex_norm_audience]

end AbcdsDetector

namespace AbcdsDetector

theorem ex_sorted_desc :
    sorted_desc [("hook_attention", 9/20), ("brand_visibility", 0),
      ("social_proof_trust", 7/20), ("product_clarity_benefits", 1/4),
      ("funnel_alignment", 0), ("cta", 0),
      ("creative_diversity_readiness", 3/10),
      ("measurement_compatibility", 0), ("data_audience_leverage", 0)]
    = [("hook_attention", 9/20), ("social_proof_trust", 7/20),
       ("creative_diversity_readiness", 3/10),
       ("product_clarity_benefits", 1/4), ("brand_visibility", 0),
       ("funnel_alignment", 0), ("cta", 0),
       ("measurement_compatibility", 0), ("data_audience_leverage", 0)] := by
  norm_num [sorted_desc, insert_desc]

/-- C4 counterexample: on `exAbcd` every normalized section is below 0.5;
the three *lowest* such values are `0, 0, 0`, yet the reported negative
drivers carry `0.45, 0.35, 0.3` — the three *highest* below-0.5 sections,
so the drivers are not the worst three. -/
theorem C4_counterexample :
    top_negative (norm_list exAbcd [] [])
      = [("Hook & Attention", 9/20), ("Social Proof & Trust", 7/20),
         ("Creative Diversity", 3/10)] ∧
    spec_negative_drivers (norm_list exAbcd [] [])
      = [("Brand Visibility", 0), ("Funnel Alignment", 0),
         ("Call to Action", 0)] ∧
    top_negative (norm_list exAbcd [] [])
      ≠ spec_negative_drivers (norm_list exAbcd [] []) := by
  have h1 : top_negative (norm_list exAbcd [] [])
      = [("Hook & Attention", 9/20), ("Social Proof & Trust", 7/20),
         ("Creative Diversity", 3/10)] := by
    unfold top_negative
    rw [ex_norm_list_eval, ex_sorted_desc]
    norm_num [driver_entry, SECTION_LABELS, pyRound, roundHalfEven]
    all_goals decide
  have h2 : spec_negative_drivers (norm_list exAbcd [] [])
      = [("Brand Visibility", 0), ("Funnel Alignment", 0),
         ("Call to Action", 0)] := by
    unfold spec_negative_drivers
    rw [ex_norm_list_eval]
    norm_num [sorted_asc, insert_asc, driver_entry, SECTION_LABELS,
      pyRound, roundHalfEven]
    all_goals decide
  refine ⟨h1, h2, ?_⟩
  rw [h1, h2]
  intro hcontra
  norm_num at hcontra

end AbcdsDetector
